import Mathlib

/-!
# Verification of the idb install / companion-spawner subsystem

Shallow embedding of `src/idb/common/companion_spawner.py` and
`src/idb/ipc/install.py`, with theorems settling the frozen claims about
the natural-language specification.

Modelling conventions:
* bytes are `Nat`s, byte strings are `List Nat`;
* a process's standard output is the list of its lines (content without the
  trailing newline); the empty list is end-of-stream — `readline` returning
  an empty bytes object in Python corresponds to exhausting the list, while a
  blank line in the stream is the element `""` (Python sees `b"\n"`, truthy);
* Python exceptions become explicit error sums (`Except`);
* external collaborators that the spec puts out of scope (the tar/gzip
  encoders, the test-bundle path expansion, the filesystem) are parameters.
-/

namespace Idb

/-! ## JSON values and a model of Python `json.loads`

`_read_stream` parses each stdout line with `json.loads`. We model JSON
values as a closed inductive and implement a recursive-descent parser
faithful to `json.loads` on the fragment this development exercises:
`null` / `true` / `false`, integer numbers (ports are integers per the
spec), strings without escape sequences, arrays and objects, with
arbitrary surrounding whitespace and mandatory full consumption of the
input. A line on which the parser fails corresponds to `json.loads`
raising `JSONDecodeError`. -/

inductive Json where
  | null
  | bool (b : Bool)
  | num (n : Int)
  | str (s : String)
  | arr (elems : List Json)
  | obj (fields : List (String × Json))

/-- JSON insignificant whitespace, as in Python's `json` module. -/
def isJsonWs (c : Char) : Bool :=
  c = ' ' || c = '\t' || c = '\n' || c = '\r'

/-- Drop leading JSON whitespace. -/
def skipWs : List Char → List Char
  | [] => []
  | c :: cs => if isJsonWs c then skipWs cs else c :: cs

/-- Body of a JSON string literal after the opening quote: the decoded
characters and the remainder after the closing quote. Escape sequences are
not needed by any input in this development and make the parse fail. -/
def parseStringAux : List Char → Option (List Char × List Char)
  | [] => none
  | c :: cs =>
    if c = '"' then some ([], cs)
    else if c = '\\' then none
    else
      match parseStringAux cs with
      | some (s, rest) => some (c :: s, rest)
      | none => none

/-- Longest leading run of decimal digits. -/
def takeDigits : List Char → List Char × List Char
  | [] => ([], [])
  | c :: cs =>
    if c.isDigit then
      let p := takeDigits cs
      (c :: p.1, p.2)
    else ([], c :: cs)

/-- Decimal value of a digit run. -/
def digitsToNat (ds : List Char) : Nat :=
  ds.foldl (fun acc c => acc * 10 + (c.toNat - 48)) 0

mutual

/-- Fueled recursive-descent JSON value parser; fuel bounds nesting depth. -/
def parseVal : Nat → List Char → Option (Json × List Char)
  | 0, _ => none
  | Nat.succ fuel, cs0 =>
    match skipWs cs0 with
    | 'n' :: 'u' :: 'l' :: 'l' :: rest => some (Json.null, rest)
    | 't' :: 'r' :: 'u' :: 'e' :: rest => some (Json.bool true, rest)
    | 'f' :: 'a' :: 'l' :: 's' :: 'e' :: rest => some (Json.bool false, rest)
    | '"' :: cs =>
      match parseStringAux cs with
      | some (s, rest) => some (Json.str (String.mk s), rest)
      | none => none
    | '{' :: cs =>
      match skipWs cs with
      | '}' :: rest => some (Json.obj [], rest)
      | cs1 =>
        match parseMembers fuel cs1 with
        | some (kvs, rest) => some (Json.obj kvs, rest)
        | none => none
    | '[' :: cs =>
      match skipWs cs with
      | ']' :: rest => some (Json.arr [], rest)
      | cs1 =>
        match parseElems fuel cs1 with
        | some (vs, rest) => some (Json.arr vs, rest)
        | none => none
    | '-' :: cs =>
      match takeDigits cs with
      | ([], _) => none
      | (ds, rest) => some (Json.num (-(digitsToNat ds : Int)), rest)
    | c :: cs =>
      if c.isDigit then
        match takeDigits (c :: cs) with
        | (ds, rest) => some (Json.num (digitsToNat ds : Int), rest)
      else none
    | [] => none

/-- Members of a JSON object after the opening brace (nonempty case). -/
def parseMembers : Nat → List Char → Option (List (String × Json) × List Char)
  | 0, _ => none
  | Nat.succ fuel, cs =>
    match skipWs cs with
    | '"' :: cs1 =>
      match parseStringAux cs1 with
      | none => none
      | some (key, cs2) =>
        match skipWs cs2 with
        | ':' :: cs3 =>
          match parseVal fuel cs3 with
          | none => none
          | some (v, cs4) =>
            match skipWs cs4 with
            | ',' :: cs5 =>
              match parseMembers fuel cs5 with
              | some (kvs, rest) => some ((String.mk key, v) :: kvs, rest)
              | none => none
            | '}' :: cs5 => some ([(String.mk key, v)], cs5)
            | _ => none
        | _ => none
    | _ => none

/-- Elements of a JSON array after the opening bracket (nonempty case). -/
def parseElems : Nat → List Char → Option (List Json × List Char)
  | 0, _ => none
  | Nat.succ fuel, cs =>
    match parseVal fuel cs with
    | none => none
    | some (v, cs1) =>
      match skipWs cs1 with
      | ',' :: cs2 =>
        match parseElems fuel cs2 with
        | some (vs, rest) => some (v :: vs, rest)
        | none => none
      | ']' :: cs2 => some ([v], cs2)
      | _ => none

end

/-- Model of Python `json.loads`: parse one value, demand that only
whitespace remains; `none` models a raised `JSONDecodeError`. -/
def loads (s : String) : Option Json :=
  match parseVal (s.length + 1) s.toList with
  | some (v, rest) => if skipWs rest = [] then some v else none
  | none => none

/-- Python truthiness of a parsed JSON value (`if update:` in
`_read_stream`): `None`, `False`, `0`, `""`, `[]`, `{}` are falsy. -/
def truthy : Json → Bool
  | Json.null => false
  | Json.bool b => b
  | Json.num n => n != 0
  | Json.str s => s != ""
  | Json.arr elems => !elems.isEmpty
  | Json.obj fields => !fields.isEmpty

/-- Lookup in a Python dict built by `json.loads`: with duplicate keys the
later binding wins. -/
def dictGet (k : String) (fields : List (String × Json)) : Option Json :=
  fields.foldl (fun acc kv => if kv.1 = k then some kv.2 else acc) none

/-! ## `CompanionSpawner` (`src/idb/common/companion_spawner.py`)

The companion process is external: a spawn attempt is modelled against the
stdout line list the created process would produce (`none` when
`process.stdout` is absent). Python exceptions escaping `spawn_companion`
become the `SpawnError` sum: `configurationError` is the
`CompanionSpawnerException` for a missing companion path,
`handshakeFailure` the `CompanionSpawnerException` "failed to spawn
companion", `noStdout` the `CompanionSpawnerException` "process has no
stdout", and `readError` wraps the exceptions `_read_stream` itself can
raise (`json.JSONDecodeError`, `KeyError` for a truthy object without the
`grpc_port` key, `TypeError` for indexing a truthy non-object with a
string). -/

/-- Exceptions raised inside `_read_stream` while handling a line. -/
inductive ReadError where
  | jsonDecodeError
  | keyError
  | typeError
deriving DecidableEq

/-- Exceptions escaping `spawn_companion`. -/
inductive SpawnError where
  | configurationError
  | readError (e : ReadError)
  | handshakeFailure
  | noStdout
deriving DecidableEq

/-- `CompanionSpawner._read_stream`: starting from `port = 0`, read lines
until end-of-stream (return the current port, still `0`) or until a line
parses to a truthy value, which is then indexed with `"grpc_port"` and the
loop broken. The returned port is whatever JSON value the key held
(`port = update["grpc_port"]` is untyped in the source). -/
def _read_stream : List String → Except ReadError Json
  | [] => Except.ok (Json.num 0)
  | line :: rest =>
    match loads line with
    | none => Except.error ReadError.jsonDecodeError
    | some update =>
      if truthy update then
        match update with
        | Json.obj fields =>
          match dictGet "grpc_port" fields with
          | some v => Except.ok v
          | none => Except.error ReadError.keyError
        | _ => Except.error ReadError.typeError
      else _read_stream rest

/-- One entry of `CompanionSpawner.companion_processes`: the spawned
process, remembered by its command line and target udid. -/
structure ProcessRecord where
  cmd : List String
  udid : String
deriving DecidableEq

/-- The spawner's state: the configured `companion_path` and the mutable
registry `companion_processes`. -/
structure SpawnerState where
  companion_path : String
  companion_processes : List ProcessRecord
deriving DecidableEq

/-- Observable side effects of `spawn_companion`, in program order:
`os.makedirs(IDB_LOGS_PATH)` inside `_log_file_path`, opening the
per-target log file, and `asyncio.create_subprocess_exec`. -/
inductive SpawnEffect where
  | makeLogsDir
  | openLogFile (udid : String)
  | createProcess (cmd : List String)
deriving DecidableEq

/-- `CompanionSpawner.spawn_companion`, as a function of the state, the
target udid and the environment (the stdout the created process would
offer). Returns the state after the call, the side effects performed, and
the outcome. Mirrors the source order: the `companion_path` check comes
first (before any side effect); the log directory/file and the process
creation and the registry append all happen before stdout is consulted. -/
def spawn_companion (st : SpawnerState) (target_udid : String)
    (stdout : Option (List String)) :
    SpawnerState × List SpawnEffect × Except SpawnError Json :=
  if st.companion_path = "" then
    (st, [], Except.error SpawnError.configurationError)
  else
    let cmd : List String :=
      [st.companion_path, "--udid", target_udid, "--grpc-port", "0"]
    let effects : List SpawnEffect :=
      [SpawnEffect.makeLogsDir, SpawnEffect.openLogFile target_udid,
       SpawnEffect.createProcess cmd]
    let st' : SpawnerState :=
      { st with companion_processes := st.companion_processes ++ [⟨cmd, target_udid⟩] }
    match stdout with
    | none => (st', effects, Except.error SpawnError.noStdout)
    | some lines =>
      match _read_stream lines with
      | Except.error e => (st', effects, Except.error (SpawnError.readError e))
      | Except.ok port =>
        if truthy port then (st', effects, Except.ok port)
        else (st', effects, Except.error SpawnError.handshakeFailure)

/-! ## Install protocol data model (`src/idb/ipc/install.py`)

`InstallRequest` and `Payload` are protobuf messages; unset fields read as
their proto3 defaults (empty string / empty bytes / first enum value), which
is exactly how `daemon` inspects `payload_message.payload.url` /
`.file_path` / `.data`. We model them as structures with those defaults. -/

/-- `InstallRequest.Destination`. -/
inductive Destination where
  | APP
  | XCTEST
  | DYLIB
  | DSYM
  | FRAMEWORK
deriving DecidableEq

/-- The `Payload` message; unset fields hold proto3 defaults. -/
structure Payload where
  url : String := ""
  file_path : String := ""
  data : List Nat := []
deriving DecidableEq

/-- The `InstallRequest` message; unset fields hold proto3 defaults. -/
structure InstallRequest where
  destination : Destination := Destination.APP
  payload : Payload := {}
  name_hint : String := ""
deriving DecidableEq

/-- The `InstallResponse` message. -/
structure InstallResponse where
  name : String := ""
  uuid : String := ""
deriving DecidableEq

/-- `idb.common.types.InstalledArtifact`. -/
structure InstalledArtifact where
  name : String
  uuid : String
deriving DecidableEq

/-- `CHUNK_SIZE` from `install.py`. -/
def CHUNK_SIZE : Nat := 16384

/-! ## ChunkEncoder

Files and open byte streams are their byte contents (`List Nat`). The
tar/gzip encoders and the xctest path expansion are external collaborators
(spec §1 scope) and enter as parameters: an `Externals` value fixes, for
the session, what they would produce. -/

/-- External collaborators of `install.py`: `tar.generate_tar`,
`gzip.generate_gzip`, `xctest_paths_to_tar`, and the filesystem contents
behind `aiofiles.open(path).read`. -/
structure Externals where
  tar_chunks : List String → List (List Nat)
  gzip_chunks : String → List (List Nat)
  xctest_paths : String → List String
  file_contents : String → List Nat

/-- `_generate_ipa_chunks`: read the file in `CHUNK_SIZE` blocks, yielding
one `payload.data` message per block, returning at the first empty read. -/
def _generate_ipa_chunks (contents : List Nat) : List InstallRequest :=
  if h : contents = [] then []
  else
    { payload := { data := contents.take CHUNK_SIZE } }
      :: _generate_ipa_chunks (contents.drop CHUNK_SIZE)
termination_by contents.length
decreasing_by
  have hp : 0 < contents.length := List.length_pos.mpr h
  simp only [List.length_drop, CHUNK_SIZE]
  omega

/-- `_generate_io_chunks`: identical loop to `_generate_ipa_chunks`, over
an already-open byte stream. -/
def _generate_io_chunks (contents : List Nat) : List InstallRequest :=
  if h : contents = [] then []
  else
    { payload := { data := contents.take CHUNK_SIZE } }
      :: _generate_io_chunks (contents.drop CHUNK_SIZE)
termination_by contents.length
decreasing_by
  have hp : 0 < contents.length := List.length_pos.mpr h
  simp only [List.length_drop, CHUNK_SIZE]
  omega

/-- `_generate_app_chunks`: tar the single `.app` path. -/
def _generate_app_chunks (ext : Externals) (app_path : String) : List InstallRequest :=
  (ext.tar_chunks [app_path]).map (fun c => { payload := { data := c } })

/-- `_generate_xctest_chunks`: tar the expanded xctest paths. -/
def _generate_xctest_chunks (ext : Externals) (path : String) : List InstallRequest :=
  (ext.tar_chunks (ext.xctest_paths path)).map (fun c => { payload := { data := c } })

/-- `os.path.basename`: the part of the path after the last slash. -/
def basename (path : String) : String :=
  String.mk (path.toList.foldl (fun acc c => if c = '/' then [] else acc ++ [c]) [])

/-- `_generate_dylib_chunks`: first a `name_hint` message carrying the base
file name, then one `payload.data` message per gzip chunk. -/
def _generate_dylib_chunks (ext : Externals) (path : String) : List InstallRequest :=
  { name_hint := basename path }
    :: (ext.gzip_chunks path).map (fun c => { payload := { data := c } })

/-- `_generate_dsym_chunks`: tar the single path. -/
def _generate_dsym_chunks (ext : Externals) (path : String) : List InstallRequest :=
  (ext.tar_chunks [path]).map (fun c => { payload := { data := c } })

/-- `_generate_framework_chunks`: tar the single path. -/
def _generate_framework_chunks (ext : Externals) (path : String) : List InstallRequest :=
  (ext.tar_chunks [path]).map (fun c => { payload := { data := c } })

/-- The `GRPCError(FAILED_PRECONDITION)` raised by
`_generate_binary_chunks` for an unsupported destination / path-suffix
combination. -/
inductive GrpcError where
  | failedPrecondition (path : String) (destination : Destination)
deriving DecidableEq

/-- `_generate_binary_chunks`: pick the encoder from the destination (and,
for `APP`, the path suffix); any uncovered combination raises. -/
def _generate_binary_chunks (ext : Externals) (path : String)
    (destination : Destination) : Except GrpcError (List InstallRequest) :=
  if destination = Destination.APP then
    if path.endsWith ".ipa" then
      Except.ok (_generate_ipa_chunks (ext.file_contents path))
    else if path.endsWith ".app" then
      Except.ok (_generate_app_chunks ext path)
    else Except.error (GrpcError.failedPrecondition path destination)
  else if destination = Destination.XCTEST then
    Except.ok (_generate_xctest_chunks ext path)
  else if destination = Destination.DYLIB then
    Except.ok (_generate_dylib_chunks ext path)
  else if destination = Destination.DSYM then
    Except.ok (_generate_dsym_chunks ext path)
  else
    Except.ok (_generate_framework_chunks ext path)

/-! ## InstallOrchestrator and InstallRelay

A session is modelled by the ordered trace of events performed on the
downstream (forwarded) stream, plus the outcome. The downstream peer's
single reply is a parameter (`response`). `Path.resolve(strict=True)` is
the filesystem parameter `resolve`: `none` models a raised
`FileNotFoundError`, `some abs` the resolved absolute path. -/

/-- One event on a downstream gRPC stream. -/
inductive StreamEvent where
  | sendMsg (m : InstallRequest)
  | endStream
  | recvMsg
deriving DecidableEq

/-- Scheme characters of `urllib.parse.urlsplit`: ASCII letters, digits,
`+`, `-`, `.`. -/
def isSchemeChar (c : Char) : Bool :=
  c.isAlpha || c.isDigit || c = '+' || c = '-' || c = '.'

/-- The characters strictly before the first `:`, when a `:` exists. -/
def schemeCandidate : List Char → Option (List Char)
  | [] => none
  | c :: cs =>
    if c = ':' then some []
    else (schemeCandidate cs).map (fun pre => c :: pre)

/-- `urllib.parse.urlparse(s).scheme` is nonempty: there is a `:` at a
positive position and everything before it is a scheme character. -/
def hasScheme (s : String) : Bool :=
  match schemeCandidate s.toList with
  | some pre => !pre.isEmpty && pre.all isSchemeChar
  | none => false

/-- Errors escaping the orchestrator: `FileNotFoundError` from
`Path.resolve(strict=True)`. -/
inductive InstallError where
  | notFoundError
deriving DecidableEq

/-- `Bundle = Union[str, IO[bytes]]`. -/
inductive Bundle where
  | str (s : String)
  | bytes (contents : List Nat)
deriving DecidableEq

/-- Modelled from the spec: `drain_to_stream` lives in
`idb/grpc/stream.py`, which is not part of this snapshot. Per spec
§4.3/§4.4 it drains the generated message sequence into the stream, signals
stream-end, and reads exactly one response (returned by the caller's
environment, so only the events are produced here). -/
def drain_to_stream (generator : List InstallRequest) : List StreamEvent :=
  generator.map StreamEvent.sendMsg ++ [StreamEvent.endStream, StreamEvent.recvMsg]

/-- `_install_to_destination`: the events on the opened stream and the
outcome, given the environment (`resolve`, downstream `response`). For a
string bundle the payload is chosen before the stream is opened (a
`NotFoundError` aborts with no events); for a byte stream the fixed-block
chunks are drained after the destination message. -/
def _install_to_destination (resolve : String → Option String)
    (response : InstallResponse) (bundle : Bundle) (destination : Destination) :
    List StreamEvent × Except InstallError InstalledArtifact :=
  match bundle with
  | Bundle.str b =>
    if hasScheme b then
      ([StreamEvent.sendMsg { destination := destination },
        StreamEvent.sendMsg { payload := { url := b } },
        StreamEvent.endStream, StreamEvent.recvMsg],
       Except.ok { name := response.name, uuid := response.uuid })
    else
      match resolve b with
      | none => ([], Except.error InstallError.notFoundError)
      | some abs =>
        ([StreamEvent.sendMsg { destination := destination },
          StreamEvent.sendMsg { payload := { file_path := abs } },
          StreamEvent.endStream, StreamEvent.recvMsg],
         Except.ok { name := response.name, uuid := response.uuid })
  | Bundle.bytes contents =>
    (StreamEvent.sendMsg { destination := destination }
       :: drain_to_stream (_generate_io_chunks contents),
     Except.ok { name := response.name, uuid := response.uuid })

/-- `install`: the shared algorithm at destination `APP`. -/
def install (resolve : String → Option String) (response : InstallResponse)
    (bundle : Bundle) : List StreamEvent × Except InstallError InstalledArtifact :=
  _install_to_destination resolve response bundle Destination.APP

/-- `install_xctest`: the shared algorithm at destination `XCTEST`. -/
def install_xctest (resolve : String → Option String) (response : InstallResponse)
    (bundle : Bundle) : List StreamEvent × Except InstallError InstalledArtifact :=
  _install_to_destination resolve response bundle Destination.XCTEST

/-- `install_dylib`: the shared algorithm at destination `DYLIB`. -/
def install_dylib (resolve : String → Option String) (response : InstallResponse)
    (dylib : Bundle) : List StreamEvent × Except InstallError InstalledArtifact :=
  _install_to_destination resolve response dylib Destination.DYLIB

/-- `install_dsym`: the shared algorithm at destination `DSYM`. -/
def install_dsym (resolve : String → Option String) (response : InstallResponse)
    (dsym : Bundle) : List StreamEvent × Except InstallError InstalledArtifact :=
  _install_to_destination resolve response dsym Destination.DSYM

/-- `install_framework`: the shared algorithm at destination `FRAMEWORK`. -/
def install_framework (resolve : String → Option String) (response : InstallResponse)
    (framework_path : Bundle) : List StreamEvent × Except InstallError InstalledArtifact :=
  _install_to_destination resolve response framework_path Destination.FRAMEWORK

/-- Errors escaping `daemon`: the bare
`Exception("Unrecognised payload message")`, or the `GRPCError` raised by
`_generate_binary_chunks`. -/
inductive DaemonError where
  | unrecognizedPayload
  | grpc (e : GrpcError)
deriving DecidableEq

/-- `daemon` (the relay): after receiving the destination and first payload
message from the inbound stream, forward the destination message, then
branch on `is_local` / `url` / `file_path` / `data`. The result is the
event trace of the downstream `forward_stream` plus the outcome (`.ok r`
means `r` is the response sent back upstream). `inbound_rest` is the
remainder of the inbound stream (drained downstream in the `data` branch).
-/
def daemon (ext : Externals) (is_local : Bool)
    (destination_message payload_message : InstallRequest)
    (inbound_rest : List InstallRequest) (response : InstallResponse) :
    List StreamEvent × Except DaemonError InstallResponse :=
  let file_path := payload_message.payload.file_path
  let url := payload_message.payload.url
  let data := payload_message.payload.data
  let destination := destination_message.destination
  let forwarded := [StreamEvent.sendMsg destination_message]
  if is_local || url.length != 0 then
    (forwarded ++ [StreamEvent.sendMsg payload_message,
                   StreamEvent.endStream, StreamEvent.recvMsg],
     Except.ok response)
  else if file_path != "" then
    match _generate_binary_chunks ext file_path destination with
    | Except.error e => (forwarded, Except.error (DaemonError.grpc e))
    | Except.ok generator => (forwarded ++ drain_to_stream generator, Except.ok response)
  else if !data.isEmpty then
    (forwarded ++ [StreamEvent.sendMsg payload_message] ++ drain_to_stream inbound_rest,
     Except.ok response)
  else
    (forwarded, Except.error DaemonError.unrecognizedPayload)

/-! ## Helper lemmas and concrete environments -/

/-- A concrete external environment for closed instantiations. -/
def sampleExternals : Externals :=
  { tar_chunks := fun _ => [[1]]
    gzip_chunks := fun _ => [[9]]
    xctest_paths := fun p => [p]
    file_contents := fun _ => [1, 2, 3] }

/-- With a configured companion path, the outcome of `spawn_companion` is
decided by `_read_stream` on the stdout lines. -/
theorem spawn_outcome (st : SpawnerState) (udid : String) (lines : List String)
    (hpath : st.companion_path ≠ "") :
    (spawn_companion st udid (some lines)).2.2 =
      match _read_stream lines with
      | Except.error e => Except.error (SpawnError.readError e)
      | Except.ok port =>
        if truthy port then Except.ok port
        else Except.error SpawnError.handshakeFailure := by
  simp only [spawn_companion, if_neg hpath]
  cases _read_stream lines with
  | error e => rfl
  | ok port => by_cases ht : truthy port <;> simp [ht]

/-- A stdout whose every line parses to a falsy JSON value is read to the
end, leaving the port at its initial value `0`. -/
theorem read_stream_all_falsy : ∀ lines : List String,
    (∀ l ∈ lines, ∃ v, loads l = some v ∧ truthy v = false) →
    _read_stream lines = Except.ok (Json.num 0)
  | [], _ => rfl
  | l :: rest, h => by
    obtain ⟨v, hv, hvf⟩ := h l (List.mem_cons_self l rest)
    have tail := read_stream_all_falsy rest (fun x hx => h x (List.mem_cons_of_mem _ hx))
    simp [_read_stream, hv, hvf, tail]

/-! ## Claims C2, C3, C7, C9, C10 — the process supervisor -/

/-- C2 counterexample: the stdout of end-to-end scenario B, the line `no`
followed by the port announcement. `json.loads` fails on `no` (it is not
JSON), so `_read_stream` raises a decode error and `spawn_companion`
propagates it instead of returning `10882`: the `no` line is not ignored.
-/
theorem c2_counterexample :
    loads "no" = none ∧
    _read_stream ["no", "\x7b\"grpc_port\": 10882\x7d"]
      = Except.error ReadError.jsonDecodeError ∧
    (spawn_companion ⟨"/bin/companion", []⟩ "UDID1"
        (some ["no", "\x7b\"grpc_port\": 10882\x7d"])).2.2
      = Except.error (SpawnError.readError ReadError.jsonDecodeError) :=
  ⟨rfl, rfl, rfl⟩

/-- C2 amended: during the spawn handshake a line that parses as a falsy
JSON value is ignored and reading continues; a line that is not valid JSON
(such as `no`) aborts the spawn with a JSON decode error. For a stdout that
emits `{}` followed by `{"grpc_port": 10882}`, spawn returns `10882`. -/
theorem c2_falsy_lines_ignored (l : String) (v : Json) (rest : List String)
    (st : SpawnerState) (udid : String)
    (hparse : loads l = some v) (hfalsy : truthy v = false)
    (hpath : st.companion_path ≠ "") :
    _read_stream (l :: rest) = _read_stream rest ∧
    (spawn_companion st udid
        (some ["\x7b\x7d", "\x7b\"grpc_port\": 10882\x7d"])).2.2
      = Except.ok (Json.num 10882) := by
  constructor
  · simp [_read_stream, hparse, hfalsy]
  · rw [spawn_outcome st udid _ hpath]; rfl

/-- C2 witness: the amended theorem applied to the falsy line `{}` and a
concrete spawner state. -/
theorem c2_witness :
    _read_stream ["\x7b\x7d"] = _read_stream [] ∧
    (spawn_companion ⟨"/bin/companion", []⟩ "UDID1"
        (some ["\x7b\x7d", "\x7b\"grpc_port\": 10882\x7d"])).2.2
      = Except.ok (Json.num 10882) :=
  c2_falsy_lines_ignored "\x7b\x7d" (Json.obj []) [] ⟨"/bin/companion", []⟩ "UDID1"
    rfl rfl (by decide)

/-- C3 counterexample: a spawn with a configured path whose companion
closes stdout immediately fails with the handshake exception, yet the
registry (empty before the call) now holds a record for the attempt: the
registry is not unchanged on every failing spawn. -/
theorem c3_counterexample :
    (spawn_companion ⟨"/bin/companion", []⟩ "UDID1" (some [])).2.2
      = Except.error SpawnError.handshakeFailure ∧
    (spawn_companion ⟨"/bin/companion", []⟩ "UDID1" (some [])).1.companion_processes
      = [⟨["/bin/companion", "--udid", "UDID1", "--grpc-port", "0"], "UDID1"⟩] :=
  ⟨rfl, rfl⟩

/-- C3 amended: the registry is unchanged only when spawn fails before the
process is created (the configuration error for an empty companion path);
on every spawn that reaches process creation — succeeding or failing — the
registry gains exactly one record for the attempt. -/
theorem c3_registry_after_spawn (st : SpawnerState) (udid : String)
    (stdout : Option (List String)) :
    (st.companion_path = "" →
      spawn_companion st udid stdout
        = (st, [], Except.error SpawnError.configurationError)) ∧
    (st.companion_path ≠ "" →
      (spawn_companion st udid stdout).1.companion_processes
        = st.companion_processes
            ++ [⟨[st.companion_path, "--udid", udid, "--grpc-port", "0"], udid⟩]) := by
  constructor
  · intro h
    simp [spawn_companion, h]
  · intro h
    simp only [spawn_companion, if_neg h]
    cases stdout with
    | none => rfl
    | some lines =>
      cases hr : _read_stream lines with
      | error e => simp [hr]
      | ok port =>
        by_cases ht : truthy port <;> simp [hr, ht]

/-- C3 witness: both branches of the amended theorem at concrete states. -/
theorem c3_witness :
    spawn_companion ⟨"", []⟩ "UDID1" (some [])
      = (⟨"", []⟩, [], Except.error SpawnError.configurationError) ∧
    (spawn_companion ⟨"/bin/companion", []⟩ "UDID1" (some [])).1.companion_processes
      = [⟨["/bin/companion", "--udid", "UDID1", "--grpc-port", "0"], "UDID1"⟩] :=
  ⟨(c3_registry_after_spawn ⟨"", []⟩ "UDID1" (some [])).1 rfl,
   (c3_registry_after_spawn ⟨"/bin/companion", []⟩ "UDID1" (some [])).2 (by decide)⟩

/-- C7 counterexample: a stdout that closes after the single line
`{"a": 1}` — a truthy JSON object without a `grpc_port` field — makes
`spawn_companion` fail with a `KeyError` (indexing the dict), not with the
handshake-failure exception. -/
theorem c7_counterexample :
    (spawn_companion ⟨"/bin/companion", []⟩ "UDID1" (some ["\x7b\"a\": 1\x7d"])).2.2
      = Except.error (SpawnError.readError ReadError.keyError) ∧
    SpawnError.readError ReadError.keyError ≠ SpawnError.handshakeFailure :=
  ⟨rfl, by decide⟩

/-- C7 amended: for every stdout line sequence whose lines all parse to
falsy JSON values (in particular one that closes immediately), the stream
is read to its end and spawn fails with the handshake-failure exception; a
truthy line without a `grpc_port` field instead raises a key error. -/
theorem c7_handshake_failure_on_falsy_close (lines : List String)
    (hfalsy : ∀ l ∈ lines, ∃ v, loads l = some v ∧ truthy v = false)
    (st : SpawnerState) (udid : String) (hpath : st.companion_path ≠ "") :
    _read_stream lines = Except.ok (Json.num 0) ∧
    (spawn_companion st udid (some lines)).2.2
      = Except.error SpawnError.handshakeFailure := by
  have hread := read_stream_all_falsy lines hfalsy
  refine ⟨hread, ?_⟩
  rw [spawn_outcome st udid lines hpath, hread]
  rfl

/-- C7 witness: the amended theorem at the empty stdout (stream closes at
once) and a concrete spawner state. -/
theorem c7_witness :
    _read_stream [] = Except.ok (Json.num 0) ∧
    (spawn_companion ⟨"/bin/companion", []⟩ "UDID1" (some [])).2.2
      = Except.error SpawnError.handshakeFailure :=
  c7_handshake_failure_on_falsy_close [] (by simp) ⟨"/bin/companion", []⟩ "UDID1"
    (by decide)

/-- C9: a stdout whose first line is `{"grpc_port": 0}` leaves the port at
`0` (the line is truthy and breaks the loop), and `spawn_companion` then
fails with the handshake-failure exception rather than returning `0`:
handshake success requires a truthy announced port. -/
theorem c9_zero_port_fails (st : SpawnerState) (udid : String)
    (rest : List String) (hpath : st.companion_path ≠ "") :
    _read_stream ("\x7b\"grpc_port\": 0\x7d" :: rest) = Except.ok (Json.num 0) ∧
    (spawn_companion st udid (some ("\x7b\"grpc_port\": 0\x7d" :: rest))).2.2
      = Except.error SpawnError.handshakeFailure := by
  refine ⟨rfl, ?_⟩
  rw [spawn_outcome st udid _ hpath]
  rfl

/-- C9 witness: the theorem at a concrete state and the one-line stdout. -/
theorem c9_witness :
    _read_stream ["\x7b\"grpc_port\": 0\x7d"] = Except.ok (Json.num 0) ∧
    (spawn_companion ⟨"/bin/companion", []⟩ "UDID1"
        (some ["\x7b\"grpc_port\": 0\x7d"])).2.2
      = Except.error SpawnError.handshakeFailure :=
  c9_zero_port_fails ⟨"/bin/companion", []⟩ "UDID1" [] (by decide)

/-- C10: with an unset (empty) companion path, `spawn_companion` raises the
configuration exception before any side effect: no log directory or file,
no process, and the state — in particular the registry — is unchanged. -/
theorem c10_config_error_before_effects (st : SpawnerState) (udid : String)
    (stdout : Option (List String)) (hpath : st.companion_path = "") :
    spawn_companion st udid stdout
      = (st, [], Except.error SpawnError.configurationError) := by
  simp [spawn_companion, hpath]

/-- C10 witness: the theorem at a concrete empty-path state. -/
theorem c10_witness :
    spawn_companion ⟨"", [⟨["c"], "old"⟩]⟩ "UDID1" (some [])
      = (⟨"", [⟨["c"], "old"⟩]⟩, [], Except.error SpawnError.configurationError) :=
  c10_config_error_before_effects ⟨"", [⟨["c"], "old"⟩]⟩ "UDID1" (some []) rfl
/-! ## Claims C4, C5 — the chunk encoders -/

/-- The two fixed-block loops (`.ipa` file and open byte stream) are the
same function of the byte contents. -/
theorem generate_io_eq_ipa (contents : List Nat) :
    _generate_io_chunks contents = _generate_ipa_chunks contents := by
  induction contents using _generate_ipa_chunks.induct with
  | case1 => rw [_generate_io_chunks, _generate_ipa_chunks]; simp
  | case2 c h ih => rw [_generate_io_chunks, _generate_ipa_chunks]; simp [h, ih]

/-- The concatenation of the emitted chunk data is the file's contents. -/
theorem ipa_chunks_flatten (contents : List Nat) :
    ((_generate_ipa_chunks contents).map (fun m => m.payload.data)).flatten
      = contents := by
  induction contents using _generate_ipa_chunks.induct with
  | case1 => rw [_generate_ipa_chunks]; simp
  | case2 c h ih => rw [_generate_ipa_chunks]; simp [h, ih]

/-- Every emitted message is a bare data payload, nonempty and at most one
block long. -/
theorem ipa_chunks_mem (contents : List Nat) :
    ∀ m ∈ _generate_ipa_chunks contents,
      m.payload.data ≠ [] ∧ m.payload.data.length ≤ CHUNK_SIZE ∧
      m = { payload := { data := m.payload.data } } := by
  induction contents using _generate_ipa_chunks.induct with
  | case1 => rw [_generate_ipa_chunks]; simp
  | case2 c h ih =>
    rw [_generate_ipa_chunks]
    simp only [h, dif_neg, not_false_iff, List.mem_cons]
    intro m hm
    rcases hm with rfl | hm
    · refine ⟨?_, List.length_take_le _ _, rfl⟩
      show List.take CHUNK_SIZE c ≠ []
      rw [Ne, List.take_eq_nil_iff]
      simp [CHUNK_SIZE, h]
    · exact ih m hm

/-- The encoder stops exactly at end-of-file, emitting one message per
started block: no chunk after the first empty read. -/
theorem ipa_chunks_length (contents : List Nat) :
    (_generate_ipa_chunks contents).length
      = (contents.length + CHUNK_SIZE - 1) / CHUNK_SIZE := by
  induction contents using _generate_ipa_chunks.induct with
  | case1 =>
    rw [_generate_ipa_chunks]
    simp [CHUNK_SIZE]
  | case2 c h ih =>
    rw [_generate_ipa_chunks]
    have hp : 0 < c.length := List.length_pos.mpr h
    simp only [h, dif_neg, not_false_iff, List.length_cons, ih, List.length_drop]
    simp only [CHUNK_SIZE] at *
    omega

/-- All blocks except possibly the last are full (`CHUNK_SIZE` bytes): the
file is read in fixed blocks in file order. -/
theorem ipa_chunks_full_blocks (contents : List Nat) :
    ∀ m ∈ (_generate_ipa_chunks contents).dropLast,
      m.payload.data.length = CHUNK_SIZE := by
  induction contents using _generate_ipa_chunks.induct with
  | case1 => rw [_generate_ipa_chunks]; simp
  | case2 c h ih =>
    rw [_generate_ipa_chunks]
    simp only [h, dif_neg, not_false_iff]
    cases hrec : _generate_ipa_chunks (c.drop CHUNK_SIZE) with
    | nil => simp
    | cons y ys =>
      have hne : _generate_ipa_chunks (c.drop CHUNK_SIZE) ≠ [] := by
        rw [hrec]; simp
      have hdrop : c.drop CHUNK_SIZE ≠ [] := by
        intro hd
        rw [hd, _generate_ipa_chunks] at hne
        simp at hne
      have hlen : CHUNK_SIZE < c.length := by
        by_contra hle
        exact hdrop (List.drop_eq_nil_of_le (by omega))
      intro m hm
      rw [← hrec] at hm
      rw [List.dropLast_cons_of_ne_nil hne] at hm
      rcases List.mem_cons.mp hm with rfl | hm
      · simp only [List.length_take]
        simp only [CHUNK_SIZE] at *
        omega
      · exact ih m hm

/-- C4: both fixed-block encoders (the `.ipa` path encoder and the
open-byte-stream encoder) emit, for contents of size `N`, only nonempty
`RawBytes` data messages of at most `CHUNK_SIZE = 16384` bytes, full blocks
except possibly the last, in file order; their concatenation is exactly the
`N` input bytes; and the sequence has exactly one message per started
block, terminating at the first empty read (end-of-file). -/
theorem c4_fixed_block_encoding (contents : List Nat) :
    _generate_io_chunks contents = _generate_ipa_chunks contents ∧
    ((_generate_ipa_chunks contents).map (fun m => m.payload.data)).flatten
      = contents ∧
    (∀ m ∈ _generate_ipa_chunks contents,
      m.payload.data ≠ [] ∧ m.payload.data.length ≤ CHUNK_SIZE ∧
      m = { payload := { data := m.payload.data } }) ∧
    (∀ m ∈ (_generate_ipa_chunks contents).dropLast,
      m.payload.data.length = CHUNK_SIZE) ∧
    (_generate_ipa_chunks contents).length
      = (contents.length + CHUNK_SIZE - 1) / CHUNK_SIZE :=
  ⟨generate_io_eq_ipa contents, ipa_chunks_flatten contents, ipa_chunks_mem contents,
   ipa_chunks_full_blocks contents, ipa_chunks_length contents⟩

/-- A file of at most one block yields exactly one message holding all of
it. -/
theorem ipa_chunks_small (contents : List Nat) (hne : contents ≠ [])
    (hle : contents.length ≤ CHUNK_SIZE) :
    _generate_ipa_chunks contents = [{ payload := { data := contents } }] := by
  rw [_generate_ipa_chunks]
  rw [dif_neg hne, List.take_of_length_le hle, List.drop_eq_nil_of_le hle]
  rw [_generate_ipa_chunks]
  simp

/-- C4 witness: the conjuncts of the theorem applied at the three-byte file
`[1, 2, 3]`, with the membership hypotheses discharged concretely. -/
theorem c4_witness :
    ((_generate_ipa_chunks [1, 2, 3]).map (fun m => m.payload.data)).flatten
      = [1, 2, 3] ∧
    ([1, 2, 3] : List Nat) ≠ [] ∧ ([1, 2, 3] : List Nat).length ≤ CHUNK_SIZE := by
  have hone : _generate_ipa_chunks [1, 2, 3] = [{ payload := { data := [1, 2, 3] } }] :=
    ipa_chunks_small [1, 2, 3] (by decide) (by decide)
  have hmem : ({ payload := { data := [1, 2, 3] } } : InstallRequest)
      ∈ _generate_ipa_chunks [1, 2, 3] := by
    rw [hone]
    exact List.mem_singleton.mpr rfl
  have h := (c4_fixed_block_encoding [1, 2, 3]).2.2.1 _ hmem
  exact ⟨(c4_fixed_block_encoding [1, 2, 3]).2.1, h.1, h.2.1⟩

/-- C5: for every path (and whatever chunk sequence the external gzip
encoder produces for it), the Dylib encoding's first message is a
`name_hint` carrying the file's base name, and everything after it is a
bare data payload carrying exactly the gzip chunks in order: no data
message precedes the name hint. -/
theorem c5_dylib_name_hint_first (ext : Externals) (path : String) :
    (_generate_dylib_chunks ext path).head? = some { name_hint := basename path } ∧
    ((_generate_dylib_chunks ext path).tail.map (fun m => m.payload.data))
      = ext.gzip_chunks path ∧
    (∀ m ∈ (_generate_dylib_chunks ext path).tail,
      m.name_hint = "" ∧ m = { payload := { data := m.payload.data } }) := by
  refine ⟨rfl, ?_, ?_⟩
  · simp [_generate_dylib_chunks, Function.comp_def]
  · intro m hm
    simp only [_generate_dylib_chunks, List.tail_cons, List.mem_map] at hm
    obtain ⟨c, _, rfl⟩ := hm
    exact ⟨rfl, rfl⟩

/-- C5 witness: the theorem at a concrete path and gzip environment, with
the tail membership discharged at the single gzip chunk. -/
theorem c5_witness :
    (_generate_dylib_chunks sampleExternals "/tmp/x.dylib").head?
      = some { name_hint := "x.dylib" } ∧
    ({ payload := { data := [9] } } : InstallRequest).name_hint = "" := by
  have h := c5_dylib_name_hint_first sampleExternals "/tmp/x.dylib"
  refine ⟨?_, ?_⟩
  · rw [h.1]
    rfl
  · exact (h.2.2 { payload := { data := [9] } } (by decide)).1

/-! ## Claims C6, C8 — the install orchestrator -/

/-- C6: for a string bundle reference, a string with a URL scheme is sent
verbatim as a `Url` payload; otherwise the string is resolved against the
filesystem, failing with `NotFoundError` (before any message is sent) when
it does not exist; on success the session is exactly one destination
message, one payload message, stream-end, and one response read, whose
`name`/`uuid` become the returned `InstalledArtifact`. -/
theorem c6_install_string_bundle (resolve : String → Option String)
    (resp : InstallResponse) (b : String) (d : Destination) :
    (hasScheme b = true →
      _install_to_destination resolve resp (Bundle.str b) d
        = ([StreamEvent.sendMsg { destination := d },
            StreamEvent.sendMsg { payload := { url := b } },
            StreamEvent.endStream, StreamEvent.recvMsg],
           Except.ok { name := resp.name, uuid := resp.uuid })) ∧
    (hasScheme b = false → resolve b = none →
      _install_to_destination resolve resp (Bundle.str b) d
        = ([], Except.error InstallError.notFoundError)) ∧
    (∀ abs, hasScheme b = false → resolve b = some abs →
      _install_to_destination resolve resp (Bundle.str b) d
        = ([StreamEvent.sendMsg { destination := d },
            StreamEvent.sendMsg { payload := { file_path := abs } },
            StreamEvent.endStream, StreamEvent.recvMsg],
           Except.ok { name := resp.name, uuid := resp.uuid })) := by
  refine ⟨fun hs => ?_, fun hs hr => ?_, fun abs hs hr => ?_⟩
  · simp [_install_to_destination, hs]
  · simp [_install_to_destination, hs, hr]
  · simp [_install_to_destination, hs, hr]

/-- C6 witness: the three branches of the theorem at concrete inputs — a
URL bundle, a missing local path, and a resolving local path. -/
theorem c6_witness :
    _install_to_destination (fun _ => none) { name := "App", uuid := "abc" }
        (Bundle.str "http://host/x") Destination.APP
      = ([StreamEvent.sendMsg { destination := Destination.APP },
          StreamEvent.sendMsg { payload := { url := "http://host/x" } },
          StreamEvent.endStream, StreamEvent.recvMsg],
         Except.ok { name := "App", uuid := "abc" }) ∧
    _install_to_destination (fun _ => none) { name := "App", uuid := "abc" }
        (Bundle.str "/tmp/missing") Destination.APP
      = ([], Except.error InstallError.notFoundError) ∧
    _install_to_destination (fun _ => some "/abs/x.ipa") { name := "App", uuid := "abc" }
        (Bundle.str "x.ipa") Destination.APP
      = ([StreamEvent.sendMsg { destination := Destination.APP },
          StreamEvent.sendMsg { payload := { file_path := "/abs/x.ipa" } },
          StreamEvent.endStream, StreamEvent.recvMsg],
         Except.ok { name := "App", uuid := "abc" }) :=
  ⟨(c6_install_string_bundle (fun _ => none) { name := "App", uuid := "abc" }
      "http://host/x" Destination.APP).1 rfl,
   (c6_install_string_bundle (fun _ => none) { name := "App", uuid := "abc" }
      "/tmp/missing" Destination.APP).2.1 rfl rfl,
   (c6_install_string_bundle (fun _ => some "/abs/x.ipa") { name := "App", uuid := "abc" }
      "x.ipa" Destination.APP).2.2 "/abs/x.ipa" rfl rfl⟩

/-- C8: the five installer entry points are extensionally the single shared
algorithm `_install_to_destination`, each applied with its destination
kind; they differ in nothing else. -/
theorem c8_variants_shared_algorithm (resolve : String → Option String)
    (resp : InstallResponse) (bundle : Bundle) :
    install resolve resp bundle
        = _install_to_destination resolve resp bundle Destination.APP ∧
    install_xctest resolve resp bundle
        = _install_to_destination resolve resp bundle Destination.XCTEST ∧
    install_dylib resolve resp bundle
        = _install_to_destination resolve resp bundle Destination.DYLIB ∧
    install_dsym resolve resp bundle
        = _install_to_destination resolve resp bundle Destination.DSYM ∧
    install_framework resolve resp bundle
        = _install_to_destination resolve resp bundle Destination.FRAMEWORK :=
  ⟨rfl, rfl, rfl, rfl, rfl⟩

/-! ## Claim C1 — the install relay -/

/-- C1 counterexample: a non-local relay session whose payload message has
none of `url` / `file_path` / `data` populated does fail with the
unrecognised-payload exception, but the downstream trace is not empty: the
destination message was already forwarded before the payload was examined.
-/
theorem c1_counterexample :
    daemon sampleExternals false { destination := Destination.APP } {} []
        { name := "n", uuid := "u" }
      = ([StreamEvent.sendMsg { destination := Destination.APP }],
         Except.error DaemonError.unrecognizedPayload) ∧
    ([StreamEvent.sendMsg { destination := Destination.APP }] : List StreamEvent)
      ≠ [] :=
  ⟨rfl, by simp⟩

/-- C1 amended: for every non-local relay session whose first payload
message has none of the `Url` / `FilePath` / `RawBytes` variants populated,
the relay fails with the unrecognised-payload exception and the destination
message — and only it — has been forwarded to the downstream peer; no
payload message is forwarded. (A local session forwards the empty payload
verbatim instead of failing.) -/
theorem c1_unrecognized_payload_after_destination (ext : Externals)
    (dmsg pmsg : InstallRequest) (rest : List InstallRequest)
    (resp : InstallResponse) (hurl : pmsg.payload.url = "")
    (hfp : pmsg.payload.file_path = "") (hdata : pmsg.payload.data = []) :
    daemon ext false dmsg pmsg rest resp
      = ([StreamEvent.sendMsg dmsg], Except.error DaemonError.unrecognizedPayload) := by
  simp [daemon, hurl, hfp, hdata]

/-- C1 witness: the amended theorem at a concrete empty payload message. -/
theorem c1_witness :
    daemon sampleExternals false { destination := Destination.DYLIB } {} []
        { name := "n", uuid := "u" }
      = ([StreamEvent.sendMsg { destination := Destination.DYLIB }],
         Except.error DaemonError.unrecognizedPayload) :=
  c1_unrecognized_payload_after_destination sampleExternals
    { destination := Destination.DYLIB } {} [] { name := "n", uuid := "u" }
    rfl rfl rfl

end Idb

